import Mathlib

/-!
Shallow embedding of `src/cursor_chat_exporter/cursor_export.py` from the
`cursor_chat_exporter` repository, together with theorems settling the
claims about its specification.

Modelling conventions:
* Python dictionaries holding the session data are modelled as structures.
  Fields that the code only ever reads through a truthiness test
  (`if d.get('k'):` — where `None`, `''` and `[]` all behave alike) are
  modelled as a `String` or `List` whose empty value plays the role of
  "absent".  Fields read with `d.get('k', default)` where an empty present
  value behaves differently from an absent key are modelled as `Option`.
* Python `int` timestamps are modelled as `Int`.  `date_str / 1000` (true
  division producing a float) followed by `datetime.fromtimestamp` displays
  whole seconds, which for integer-millisecond inputs of the magnitudes the
  code deals with equals the floor of the exact rational quotient, so the
  model computes `Int.fdiv _ 1000`.
* `datetime.fromtimestamp` converts to local time; the model threads an
  explicit fixed offset `tz` (in seconds) through every function that
  formats a timestamp.  It fails (raising, caught by the bare `except:`)
  when the resulting calendar year falls outside `datetime`'s range
  1..9999; the model returns `none` in that case.
* File writes are modelled as an accumulated list of `FileWrite` records
  (output tree, path, content); directory creation has no observable
  effect on the modelled state and is omitted.
* The external `markdown` library and `json.dumps` serialiser are not part
  of this repository; the pipeline is parameterised over them
  (`mdToHtml`, `jsonDumps`).
-/

/-- A Python value appearing as a timestamp (or other loosely typed field):
an `int` epoch value or a `str`. -/
inductive PyVal where
  | int (n : Int)
  | str (s : String)
deriving DecidableEq, Repr

/-- Python `str(v)`. -/
def pyStr : PyVal → String
  | .int n => toString n
  | .str s => s

/-- Test `listPrefixOf pat s` : the first list is an initial segment of the
second. -/
def listPrefixOf : List Char → List Char → Bool
  | [], _ => true
  | _ :: _, [] => false
  | a :: as, b :: bs => a == b && listPrefixOf as bs

/-- Left-to-right non-overlapping replacement of a nonempty pattern
`p :: ps`, the semantics of Python `str.replace` (re-implemented on
character lists, with a fuel argument keeping the recursion structural so
that the kernel can compute with it; with `fuel ≥ l.length` the fuel never
runs out, since every step consumes as many characters as fuel). -/
def replaceFuel (p : Char) (ps new : List Char) : Nat → List Char → List Char
  | _, [] => []
  | 0, l => l
  | fuel + 1, c :: rest =>
    if listPrefixOf (p :: ps) (c :: rest) then
      new ++ replaceFuel p ps new fuel (rest.drop ps.length)
    else
      c :: replaceFuel p ps new fuel rest

/-- Python `s.replace(pat, new)` for a nonempty pattern (every pattern used
by the code — `"Z"`, `"file://"`, `" "`, `":"` — is nonempty; an empty
pattern leaves the string unchanged here). -/
def strReplace (s pat new : String) : String :=
  match pat.data with
  | [] => s
  | p :: ps => ⟨replaceFuel p ps new.data s.data.length s.data⟩

/-- Python `s.startswith(t)`. -/
def strStartsWith (s t : String) : Bool := listPrefixOf t.data s.data

/-- Python `s[:n]` for `0 ≤ n`. -/
def strTake (s : String) (n : Nat) : String := ⟨s.data.take n⟩

/-- Python `sep.join(parts)`. -/
def strIntercalate (sep : String) : List String → String
  | [] => ""
  | x :: xs => xs.foldl (fun acc y => acc ++ sep ++ y) x

/-- Python truthiness of a `PyVal` (`0` and `''` are falsy). -/
def pyTruthy : PyVal → Bool
  | .int n => n != 0
  | .str s => s != ""

/-- Convert a count of days since 1970-01-01 to a civil `(year, month, day)`
triple (proleptic Gregorian calendar, as used by `datetime`). -/
def civilFromDays (z0 : Int) : Int × Int × Int :=
  let z := z0 + 719468
  let era := z.fdiv 146097
  let doe := z - era * 146097
  let yoe := (doe - doe.ediv 1460 + doe.ediv 36524 - doe.ediv 146096).ediv 365
  let y := yoe + era * 400
  let doy := doe - (365 * yoe + yoe.ediv 4 - yoe.ediv 100)
  let mp := (5 * doy + 2).ediv 153
  let d := doy - (153 * mp + 2).ediv 5 + 1
  let m := mp + (if mp < 10 then 3 else -9)
  (y + (if m ≤ 2 then 1 else 0), m, d)

/-- Calendar fields `(year, month, day, hour, minute, second)`. -/
abbrev DtFields := Int × Int × Int × Int × Int × Int

/-- Model of `datetime.fromtimestamp(totalSecs)` under a fixed local-time
offset `tz` (seconds east of UTC), keeping only the fields that
`strftime("%Y-%m-%d %H:%M:%S")` displays.  Returns `none` when the calendar
year falls outside `datetime`'s supported range 1..9999 (in the code this
raises and is caught by the bare `except:`). -/
def fromtimestampFields (tz : Int) (totalSecs : Int) : Option DtFields :=
  let t := totalSecs + tz
  let day := t.ediv 86400
  let sod := t.emod 86400
  match civilFromDays day with
  | (y, m, d) =>
    if 1 ≤ y ∧ y ≤ 9999 then
      some (y, m, d, sod.ediv 3600, (sod.ediv 60).emod 60, sod.emod 60)
    else none

/-- The character for decimal digit `d mod 10`. -/
def digitChar (d : Int) : Char := Char.ofNat (48 + (d.emod 10).toNat)

/-- Two-digit zero-padded rendering (`%02d` for values in 0..99). -/
def pad2 (n : Int) : String := String.mk [digitChar (n.ediv 10), digitChar n]

/-- Four-digit zero-padded rendering of the year (`%Y`; platform `strftime`
may render years below 1000 without padding, but every theorem below only
exercises years of four digits). -/
def pad4 (y : Int) : String :=
  String.mk [digitChar (y.ediv 1000), digitChar (y.ediv 100), digitChar (y.ediv 10),
             digitChar y]

/-- Render `strftime("%Y-%m-%d %H:%M:%S")` on the given fields. -/
def strftimeYmdHms (f : DtFields) : String :=
  match f with
  | (y, m, d, h, mi, s) =>
    pad4 y ++ "-" ++ pad2 m ++ "-" ++ pad2 d ++ " " ++ pad2 h ++ ":" ++ pad2 mi ++ ":"
      ++ pad2 s

/-- Value of a decimal digit character. -/
def digitVal (c : Char) : Option Nat :=
  if c.isDigit then some (c.toNat - 48) else none

/-- Parse exactly two decimal digits. -/
def parse2 : List Char → Option (Nat × List Char)
  | a :: b :: rest => do
    let x ← digitVal a
    let y ← digitVal b
    pure (10 * x + y, rest)
  | _ => none

/-- Gregorian leap-year test. -/
def leapYear (y : Int) : Bool :=
  (y.emod 4 == 0 && y.emod 100 != 0) || y.emod 400 == 0

/-- Number of days in a month. -/
def daysInMonth (y m : Int) : Int :=
  if m = 2 then (if leapYear y then 29 else 28)
  else if m = 4 ∨ m = 6 ∨ m = 9 ∨ m = 11 then 30
  else 31

/-- Parse an optional `datetime.fromisoformat` UTC-offset suffix
`(+|-)HH:MM[:SS[.ffffff]]`; `true` iff the whole remainder is a valid
(possibly empty) offset. -/
def parseOffsetTail : List Char → Bool
  | [] => true
  | sign :: rest =>
    if sign = '+' ∨ sign = '-' then
      match parse2 rest with
      | some (hh, ':' :: rest2) =>
        match parse2 rest2 with
        | some (mm, rest3) =>
          if hh < 24 ∧ mm ≤ 59 then
            match rest3 with
            | [] => true
            | ':' :: rest4 =>
              match parse2 rest4 with
              | some (ss, rest5) =>
                if ss ≤ 59 then
                  match rest5 with
                  | [] => true
                  | '.' :: rest6 =>
                    let frac := rest6.takeWhile Char.isDigit
                    let after := rest6.dropWhile Char.isDigit
                    1 ≤ frac.length && frac.length ≤ 6 && after.isEmpty
                  | _ => false
                else false
              | _ => false
            | _ => false
          else false
        | none => false
      | _ => false
    else false

/-- Parse the seconds-and-fraction tail `SS[.ffffff]` followed by an
optional offset, completing the time fields. -/
def parseSecondsTail (y m d hh mm : Int) (cs : List Char) : Option DtFields :=
  match parse2 cs with
  | some (ss, rest) =>
    if ss ≤ 59 then
      match rest with
      | '.' :: rest2 =>
        let frac := rest2.takeWhile Char.isDigit
        let after := rest2.dropWhile Char.isDigit
        if 1 ≤ frac.length ∧ frac.length ≤ 6 ∧ parseOffsetTail after then
          some (y, m, d, hh, mm, (ss : Int))
        else none
      | _ => if parseOffsetTail rest then some (y, m, d, hh, mm, (ss : Int)) else none
    else none
  | none => none

/-- Parse the time portion `HH[:MM[:SS[.ffffff]]]` followed by an optional
offset. -/
def parseTimeTail (y m d : Int) (cs : List Char) : Option DtFields :=
  match parse2 cs with
  | some (hh, rest) =>
    if hh ≤ 23 then
      match rest with
      | ':' :: rest2 =>
        match parse2 rest2 with
        | some (mm, rest3) =>
          if mm ≤ 59 then
            match rest3 with
            | ':' :: rest4 => parseSecondsTail y m d hh mm rest4
            | _ =>
              if parseOffsetTail rest3 then some (y, m, d, (hh : Int), (mm : Int), 0)
              else none
          else none
        | none => none
      | _ => if parseOffsetTail rest then some (y, m, d, (hh : Int), 0, 0) else none
    else none
  | none => none

/-- Model of `datetime.fromisoformat` on the string's characters: the format
`YYYY-MM-DD[*HH[:MM[:SS[.ffffff]]]][(+|-)HH:MM[:SS[.ffffff]]]` where `*` is
any single separator character, with field-range validation.  Returns the
displayed calendar fields (a parsed offset is recorded syntactically only:
`strftime` prints an aware datetime's own wall-clock fields without
conversion). -/
def parseIsoChars : List Char → Option DtFields
  | y1 :: y2 :: y3 :: y4 :: '-' :: mo1 :: mo2 :: '-' :: d1 :: d2 :: rest => do
    let a ← digitVal y1
    let b ← digitVal y2
    let c ← digitVal y3
    let e ← digitVal y4
    let mh ← digitVal mo1
    let ml ← digitVal mo2
    let dh ← digitVal d1
    let dl ← digitVal d2
    let y : Int := ((1000 * a + 100 * b + 10 * c + e : Nat) : Int)
    let m : Int := ((10 * mh + ml : Nat) : Int)
    let d : Int := ((10 * dh + dl : Nat) : Int)
    if 1 ≤ y ∧ 1 ≤ m ∧ m ≤ 12 ∧ 1 ≤ d ∧ d ≤ daysInMonth y m then
      match rest with
      | [] => some (y, m, d, 0, 0, 0)
      | _ :: tail => parseTimeTail y m d tail
    else none
  | _ => none

/-- Model of `format_datetime` (cursor_export.py lines 18–27): format a timestamp as
`yyyy-mm-dd hh:mm:ss`.  Numeric input is divided by 1000 when it exceeds
`1e10` (signed comparison, exactly as in the source); on any failure the
function returns `str(date_str)`. -/
def format_datetime (tz : Int) (v : PyVal) : String :=
  match v with
  | .int n =>
    let millis : Int := if n > 10000000000 then n else 1000 * n
    match fromtimestampFields tz (millis.fdiv 1000) with
    | some f => strftimeYmdHms f
    | none => pyStr v
  | .str s =>
    match parseIsoChars (strReplace s "Z" "+00:00").toList with
    | some f => strftimeYmdHms f
    | none => s

/-- Python regex `\s` class, ASCII subset (the titles the tool sees are
ordinary text; non-ASCII Unicode whitespace is not modelled). -/
def isPySpace (c : Char) : Bool :=
  c = ' ' ∨ c = '\t' ∨ c = '\n' ∨ c = '\r' ∨ c = '\x0b' ∨ c = '\x0c'

/-- Model of `re.sub(r'\s+', '-', ·)`: collapse every maximal whitespace run to a
single `-`.  The Boolean records whether the previous character was
whitespace. -/
def collapseWsAux : Bool → List Char → List Char
  | _, [] => []
  | prevWs, c :: rest =>
    if isPySpace c then
      (if prevWs then [] else ['-']) ++ collapseWsAux true rest
    else
      c :: collapseWsAux false rest

/-- The characters `re.sub(r'[<>:"/\\|?*]', '-', ·)` removes. -/
def forbiddenFilenameChars : List Char := ['<', '>', ':', '"', '/', '\\', '|', '?', '*']

/-- The two regex substitutions applied to the title in
`get_safe_filename`. -/
def sanitizeTitle (title : String) : String :=
  ⟨collapseWsAux false (title.data.map fun c =>
      if c ∈ forbiddenFilenameChars then '-' else c)⟩

/-- Python `s[:k]` for an `Int` bound: a negative bound counts from the
end, and out-of-range bounds clamp. -/
def pySliceTo (s : String) (k : Int) : String :=
  if 0 ≤ k then ⟨s.data.take k.toNat⟩
  else ⟨s.data.take (s.data.length - k.natAbs)⟩

/-- Model of `get_safe_filename` (cursor_export.py lines 30–47). -/
def get_safe_filename (tz : Int) (timestamp : PyVal) (title : String) : String :=
  let date_str := strReplace (strReplace (format_datetime tz timestamp) " " "-") ":" "-"
  let safe_title := sanitizeTitle title
  let combined_name := date_str ++ "--" ++ safe_title
  if combined_name.length > 160 then
    date_str ++ "--" ++ pySliceTo safe_title (160 - (date_str.length : Int) - 4)
  else
    combined_name

/-- Workspace metadata.  `folder` is read only through truthiness tests and
`.get('folder', '')`, so the empty string stands for an absent key; `id` is
read with `.get('id', 'Unknown')`, where a present empty value differs from
an absent key, hence `Option`.  The `lastModified` key is never read by the
code and is omitted. -/
structure WorkspaceInfo where
  id : Option String
  folder : String
deriving DecidableEq, Repr

/-- The workspace header emitted by both markdown converters
(cursor_export.py lines 54–59 and 98–103). -/
def workspaceHeader (w : WorkspaceInfo) : String :=
  if w.folder ≠ "" then
    "# Workspace: " ++ strReplace w.folder "file://" "" ++ "\n\n"
  else
    "# Workspace: " ++ w.id.getD "Unknown" ++ "\n\n"

/-- One fragment of an AI response; `value` is read through a truthiness
test. -/
structure ResponseItem where
  value : String
deriving DecidableEq, Repr

/-- The user message of a request; `text` is read through a truthiness test
on `request.get('message', {}).get('text')`, so an absent `message` key
behaves as empty text. -/
structure Message where
  text : String
deriving DecidableEq, Repr

/-- One request (conversation turn) of a chat session. -/
structure Request where
  message : Message
  response : List ResponseItem
  timestamp : Option PyVal
deriving DecidableEq, Repr

/-- One chat session.  `customTitle` is read with `or`-fallback
(truthiness), `sessionId` and `creationDate` with `.get` defaults. -/
structure ChatSession where
  sessionId : Option String
  customTitle : String
  creationDate : Option PyVal
  requests : List Request
deriving DecidableEq, Repr

/-- The session title: `session.get('customTitle') or f"Chat Session
{session.get('sessionId', 'Unknown')}"`. -/
def sessionTitle (s : ChatSession) : String :=
  if s.customTitle ≠ "" then s.customTitle
  else "Chat Session " ++ s.sessionId.getD "Unknown"

/-- The `Created:` line (cursor_export.py lines 62–63). -/
def createdLine (tz : Int) (s : ChatSession) : String :=
  match s.creationDate with
  | some cd => if pyTruthy cd then "Created: " ++ format_datetime tz cd ++ "\n\n" else ""
  | none => ""

/-- The truthy `value` fields of the response fragments, in order
(cursor_export.py lines 79–82 and 273–276). -/
def responseParts (resp : List ResponseItem) : List String :=
  (resp.map ResponseItem.value).filter (· ≠ "")

/-- The markdown a single request contributes (loop body of
cursor_export.py lines 71–89): optional User block, optional Cursor block,
then an unconditional separator. -/
def renderRequest (r : Request) : String :=
  (if r.message.text ≠ "" then "**User**:\n\n" ++ r.message.text ++ "\n\n" else "")
    ++ (if r.response ≠ [] then
          (let parts := responseParts r.response
           if parts ≠ [] then
             "**Cursor**:\n\n" ++ strIntercalate "\n" parts ++ "\n\n"
           else "")
        else "")
    ++ "---\n\n"

/-- Model of `convert_cursor_session_to_markdown` (cursor_export.py lines 50–91). -/
def convert_cursor_session_to_markdown (tz : Int) (s : ChatSession)
    (w : WorkspaceInfo) : String :=
  workspaceHeader w ++ createdLine tz s ++ "## " ++ sessionTitle s ++ "\n\n"
    ++ (if s.requests ≠ [] then String.join (s.requests.map renderRequest) else "")

/-- One file entry of a stop in an editing-session entry. -/
structure FileEntry where
  resource : String
deriving DecidableEq, Repr

/-- One stop of an editing-session entry. -/
structure Stop where
  entries : List FileEntry
deriving DecidableEq, Repr

/-- One text change of a `postEdit` element; `txt` is read through a
truthiness test. -/
structure Change where
  txt : String
deriving DecidableEq, Repr

/-- One `postEdit` element of an editing-session entry. -/
structure PostEdit where
  resource : String
  originalToCurrentEdit : List Change
deriving DecidableEq, Repr

/-- One entry of an editing session's `linearHistory`. -/
structure EditEntry where
  stops : List Stop
  postEdit : List PostEdit
deriving DecidableEq, Repr

/-- One chat editing session. -/
structure EditingSession where
  sessionId : Option String
  version : Option PyVal
  linearHistory : List EditEntry
deriving DecidableEq, Repr

/-- The Modified File line for one stop entry (cursor_export.py lines
118–122). -/
def renderFileEntry (fe : FileEntry) : String :=
  if strStartsWith fe.resource "file://" then
    "**Modified File**: `" ++ strReplace fe.resource "file://" "" ++ "`\n\n"
  else ""

/-- The lines for one stop (cursor_export.py lines 116–122). -/
def renderStop (st : Stop) : String :=
  if st.entries ≠ [] then String.join (st.entries.map renderFileEntry) else ""

/-- The detail line for a single change of a `postEdit` element
(cursor_export.py lines 137–138): emitted only when `txt` is truthy,
truncated to 100 characters, with a trailing ellipsis marker. -/
def renderChange (c : Change) : String :=
  if c.txt ≠ "" then "    - Added: `" ++ strTake c.txt 100 ++ "...`\n" else ""

/-- The change lines of one `postEdit` element (loop of cursor_export.py
line 136): only the first five changes are visited. -/
def renderChanges (changes : List Change) : String :=
  String.join ((changes.take 5).map renderChange)

/-- The markdown one `postEdit` element contributes (cursor_export.py
lines 127–138). -/
def renderPostEdit (pe : PostEdit) : String :=
  if strStartsWith pe.resource "file://" then
    "- Modified: `" ++ strReplace pe.resource "file://" "" ++ "`\n"
      ++ (if pe.originalToCurrentEdit ≠ [] then
            "  - Edits:\n" ++ renderChanges pe.originalToCurrentEdit
          else "")
  else ""

/-- The markdown for the `i`-th (0-based) entry of `linearHistory`
(cursor_export.py lines 111–142). -/
def renderEditEntry (i : Nat) (e : EditEntry) : String :=
  "### Edit " ++ toString (i + 1) ++ "\n\n"
    ++ (if e.stops ≠ [] then String.join (e.stops.map renderStop) else "")
    ++ (if e.postEdit ≠ [] then
          "**Changes Made**:\n\n" ++ String.join (e.postEdit.map renderPostEdit) ++ "\n"
        else "")
    ++ "---\n\n"

/-- Model of `convert_cursor_editing_session_to_markdown` (cursor_export.py lines
94–144). -/
def convert_cursor_editing_session_to_markdown (s : EditingSession)
    (w : WorkspaceInfo) : String :=
  workspaceHeader w ++ "## Chat Editing Session: " ++ s.sessionId.getD "Unknown"
    ++ "\n\n"
    ++ (if s.linearHistory ≠ [] then
          String.join (s.linearHistory.enum.map fun p => renderEditEntry p.1 p.2)
        else "")

/-- The GitHub-like CSS block of `convert_to_html` (cursor_export.py lines
158–209).  Braces are written as `\x7b`/`\x7d` and apostrophes as `\x27`. -/
def cssContent : String := "
        .markdown-body \x7b
            box-sizing: border-box;
            min-width: 200px;
            max-width: 980px;
            margin: 0 auto;
            padding: 45px;
            font-family: -apple-system, BlinkMacSystemFont, \x27Segoe UI\x27, Roboto, sans-serif;
            line-height: 1.6;
            color: #24292e;
            background-color: #fff;
        \x7d

        .markdown-body h1, .markdown-body h2, .markdown-body h3 \x7b
            border-bottom: 1px solid #eaecef;
            padding-bottom: 0.3em;
        \x7d

        .markdown-body pre \x7b
            background-color: #f6f8fa;
            border-radius: 3px;
            padding: 16px;
            overflow: auto;
        \x7d

        .markdown-body code \x7b
            background-color: rgba(27,31,35,0.05);
            border-radius: 3px;
            padding: 0.2em 0.4em;
            font-size: 85%;
        \x7d

        .markdown-body ul, .markdown-body ol \x7b
            margin-top: 0.5em !important;
            margin-bottom: 0.5em !important;
            padding-left: 2em !important;
        \x7d

        .markdown-body ul \x7b
            list-style-type: disc !important;
        \x7d

        .markdown-body ol \x7b
            list-style-type: decimal !important;
        \x7d

        @media (max-width: 767px) \x7b
            .markdown-body \x7b
                padding: 15px;
            \x7d
        \x7d
    "

/-- Model of `convert_to_html` (cursor_export.py lines 153–224).  The `markdown`
library converting markdown to an HTML body is external to the repository
and is passed in as `mdToHtml`. -/
def convert_to_html (mdToHtml : String → String) (markdown_content : String) : String :=
  let html_content := mdToHtml markdown_content
  "<!DOCTYPE html>\n<html lang=\"en\">\n<head>\n    <meta charset=\"UTF-8\">\n    <meta name=\"viewport\" content=\"width=device-width, initial-scale=1.0\">\n    <title>Cursor Chat History</title>\n    <style>\n        "
    ++ cssContent
    ++ "\n    </style>\n</head>\n<body class=\"markdown-body\">\n    "
    ++ html_content
    ++ "\n</body>\n</html>"

/-- Which of the three output trees a written file belongs to. -/
inductive FileKind where
  | markdown
  | html
  | json
deriving DecidableEq, Repr

/-- One observable file write of the export pipeline. -/
structure FileWrite where
  kind : FileKind
  path : String
  content : String
deriving DecidableEq, Repr

/-- One conversation entry of the JSON workspace summary
(cursor_export.py lines 265–283). -/
structure ConvEntry where
  role : String
  text : String
  timestamp : PyVal
deriving DecidableEq, Repr

/-- One chat record of the JSON workspace summary (cursor_export.py lines
285–290). -/
structure ChatRecord where
  title : String
  sessionId : String
  timestamp : PyVal
  conversation : List ConvEntry
deriving DecidableEq, Repr

/-- One editing-session record of the JSON workspace summary
(cursor_export.py lines 319–324). -/
structure EditRecord where
  title : String
  sessionId : String
  version : PyVal
  editCount : Nat
deriving DecidableEq, Repr

/-- The per-workspace JSON summary accumulator (cursor_export.py lines
351–356). -/
structure WorkspaceData where
  workspace : String
  workspaceInfo : WorkspaceInfo
  chats : List ChatRecord
  editingSessions : List EditRecord
deriving DecidableEq, Repr

/-- The conversation entries one request contributes to the summary
(loop body of cursor_export.py lines 262–283). -/
def requestEntries (r : Request) : List ConvEntry :=
  (if r.message.text ≠ "" then
     [{ role := "User", text := r.message.text,
        timestamp := r.timestamp.getD (.str "") }]
   else [])
    ++ (if r.response ≠ [] then
          (let parts := responseParts r.response
           if parts ≠ [] then
             [{ role := "Cursor", text := strIntercalate "\n" parts,
                timestamp := r.timestamp.getD (.str "") }]
           else [])
        else [])

/-- The conversation list of a chat session's summary record
(cursor_export.py lines 260–283). -/
def buildConversation (s : ChatSession) : List ConvEntry :=
  if s.requests ≠ [] then (s.requests.map requestEntries).flatten else []

/-- Model of `export_chat_session` (cursor_export.py lines 238–290): writes the
markdown and HTML files and produces the chat record appended to
`workspace_data['chats']`.  Note that it never skips a session. -/
def export_chat_session (tz : Int) (mdToHtml : String → String) (s : ChatSession)
    (wi : WorkspaceInfo) (workspace_name output_dir : String) :
    List FileWrite × ChatRecord :=
  let title := sessionTitle s
  let timestamp := s.creationDate.getD (.str "")
  let filename := get_safe_filename tz timestamp title
  let markdown_content := convert_cursor_session_to_markdown tz s wi
  let html_content := convert_to_html mdToHtml markdown_content
  ([{ kind := FileKind.markdown,
      path := output_dir ++ "/markdown/" ++ workspace_name ++ "/" ++ filename ++ ".md",
      content := markdown_content },
    { kind := FileKind.html,
      path := output_dir ++ "/html/" ++ workspace_name ++ "/" ++ filename ++ ".html",
      content := html_content }],
   { title := title, sessionId := s.sessionId.getD "", timestamp := timestamp,
     conversation := buildConversation s })

/-- Model of `export_editing_session` (cursor_export.py lines 293–324): skips the
session entirely when `linearHistory` is empty, otherwise writes the two
files and produces the record appended to
`workspace_data['editingSessions']`. -/
def export_editing_session (mdToHtml : String → String) (es : EditingSession)
    (wi : WorkspaceInfo) (workspace_name output_dir : String) :
    Option (List FileWrite × EditRecord) :=
  if es.linearHistory = [] then none
  else
    let session_id := es.sessionId.getD "Unknown"
    let title := "Chat Editing Session " ++ session_id
    let filename := "editing-session-" ++ session_id
    let markdown_content := convert_cursor_editing_session_to_markdown es wi
    let html_content := convert_to_html mdToHtml markdown_content
    some ([{ kind := FileKind.markdown,
             path := output_dir ++ "/markdown/" ++ workspace_name ++ "/" ++ filename
               ++ ".md",
             content := markdown_content },
           { kind := FileKind.html,
             path := output_dir ++ "/html/" ++ workspace_name ++ "/" ++ filename
               ++ ".html",
             content := html_content }],
          { title := title, sessionId := session_id,
            version := es.version.getD (.str ""),
            editCount := es.linearHistory.length })

/-- Split a character list on a separator (semantics of `str.split`). -/
def splitOnChar (sep : Char) : List Char → List (List Char)
  | [] => [[]]
  | c :: rest =>
    let r := splitOnChar sep rest
    if c = sep then [] :: r
    else
      match r with
      | [] => [[c]]
      | x :: xs => (c :: x) :: xs

/-- Model of `PurePosixPath(s).name`: the last path component, with empty and `.`
components dropped by pathlib's normalisation; the root alone has no
name. -/
def pathName (s : String) : String :=
  match ((splitOnChar '/' s.data).filter fun p => p ≠ [] ∧ p ≠ ['.']).getLast? with
  | some p => ⟨p⟩
  | none => ""

/-- One WorkspaceRecord of the in-memory chat history. -/
structure Workspace where
  workspaceInfo : WorkspaceInfo
  chatSessions : List ChatSession
  editingSessions : List EditingSession
deriving DecidableEq, Repr

/-- The workspace-name computation of `export_workspace`
(cursor_export.py lines 333–338), factored out for reuse in the theorems:
last path segment of the scheme-stripped folder, or the literal
"Unknown". -/
def workspaceNameOf (workspace : Workspace) : String :=
  let workspace_folder0 := workspace.workspaceInfo.folder
  let workspace_folder :=
    if strStartsWith workspace_folder0 "file://" then
      strReplace workspace_folder0 "file://" ""
    else workspace_folder0
  if workspace_folder ≠ "" then pathName workspace_folder else "Unknown"

/-- Model of `export_workspace` (cursor_export.py lines 327–375): returns the file
writes it performs and the summary (`none` models the Python `None`
return).  `jsonDumps` stands for the external `json.dumps(·, indent=2)`
serialiser. -/
def export_workspace (tz : Int) (mdToHtml : String → String)
    (jsonDumps : WorkspaceData → String) (workspace : Workspace)
    (output_dir : String) : List FileWrite × Option WorkspaceData :=
  let has_chat_sessions := !workspace.chatSessions.isEmpty
  let has_editing_sessions := !workspace.editingSessions.isEmpty
  let workspace_name := workspaceNameOf workspace
  if !has_chat_sessions && !has_editing_sessions then ([], none)
  else
    let chat_results := workspace.chatSessions.map fun s =>
      export_chat_session tz mdToHtml s workspace.workspaceInfo workspace_name
        output_dir
    let edit_results := workspace.editingSessions.filterMap fun es =>
      export_editing_session mdToHtml es workspace.workspaceInfo workspace_name
        output_dir
    let workspace_data : WorkspaceData :=
      { workspace := workspace_name, workspaceInfo := workspace.workspaceInfo,
        chats := chat_results.map Prod.snd,
        editingSessions := edit_results.map Prod.snd }
    let session_writes :=
      (chat_results.map Prod.fst).flatten ++ (edit_results.map Prod.fst).flatten
    let json_writes :=
      if workspace_data.chats ≠ [] ∨ workspace_data.editingSessions ≠ [] then
        [{ kind := FileKind.json,
           path := output_dir ++ "/json/" ++ workspace_name ++ ".json",
           content := jsonDumps workspace_data }]
      else []
    (session_writes ++ json_writes, some workspace_data)

/-- Model of `export_all_workspaces` (cursor_export.py lines 378–387): one result,
possibly `none`, per input workspace, plus all file writes. -/
def export_all_workspaces (tz : Int) (mdToHtml : String → String)
    (jsonDumps : WorkspaceData → String) (chat_history : List Workspace)
    (output_dir : String) : List FileWrite × List (Option WorkspaceData) :=
  ((chat_history.map fun w =>
      (export_workspace tz mdToHtml jsonDumps w output_dir).fst).flatten,
   chat_history.map fun w =>
     (export_workspace tz mdToHtml jsonDumps w output_dir).snd)

/-- The per-session filter of `load_workspace_data` (cursor_export.py lines
410–412): a parsed chat session is kept only when its `requests` list is
present and non-empty. -/
def keepChatSession (s : ChatSession) : Bool := !s.requests.isEmpty

/-- The per-session filter of `load_workspace_data` for editing sessions
(cursor_export.py line 433): kept only when `linearHistory` is present and
non-empty. -/
def keepEditingSession (es : EditingSession) : Bool := !es.linearHistory.isEmpty

example : format_datetime 0 (.int 1705313400) = "2024-01-15 10:10:00" := by decide
example : format_datetime 0 (.int 1705313400000) = "2024-01-15 10:10:00" := by decide
example : format_datetime 0 (.str "2024-01-15T10:30:00Z") = "2024-01-15 10:30:00" := by
  decide
example : format_datetime 0 (.str "nonsense") = "nonsense" := by decide
example : format_datetime 0 (.int (-11000000)) = "1969-08-26 16:26:40" := by decide
example : format_datetime 0 (.int (-11000000000)) = "1621-06-04 04:26:40" := by decide

/-- Count the positions of `s` at which the pattern `t` occurs. -/
def countOccAux (t : List Char) : List Char → Nat
  | [] => 0
  | c :: rest => (if listPrefixOf t (c :: rest) then 1 else 0) + countOccAux t rest

/-- Number of occurrences of the pattern `t` in the string `s`. -/
def countOcc (t s : String) : Nat := countOccAux t.data s.data

/-- Example workspace metadata used by the concrete theorems below. -/
def exampleWsInfo : WorkspaceInfo := { id := some "ws-1", folder := "file:///home/u/proj" }

/-- A request with user text "Hi" and one response fragment "Hello". -/
def exampleRequest : Request :=
  { message := { text := "Hi" }, response := [{ value := "Hello" }], timestamp := none }

/-- A chat session with a single request. -/
def exampleSession : ChatSession :=
  { sessionId := some "s1", customTitle := "T",
    creationDate := some (.int 1705313400), requests := [exampleRequest] }

/-- A workspace with exactly one chat session. -/
def exampleWorkspace : Workspace :=
  { workspaceInfo := exampleWsInfo, chatSessions := [exampleSession],
    editingSessions := [] }

/-- A request carrying neither user text nor response fragments. -/
def blankRequest : Request :=
  { message := { text := "" }, response := [], timestamp := none }

/-- A chat session whose single request has no usable content. -/
def blankSession : ChatSession :=
  { sessionId := some "s0", customTitle := "T", creationDate := none,
    requests := [blankRequest] }

/-- A workspace whose only chat session has no usable content. -/
def blankWorkspace : Workspace :=
  { workspaceInfo := exampleWsInfo, chatSessions := [blankSession],
    editingSessions := [] }

/-- An editing session with an empty `linearHistory`. -/
def emptyHistorySession : EditingSession :=
  { sessionId := some "e1", version := none, linearHistory := [] }

/-- A workspace whose only session is an editing session with empty
history. -/
def emptyHistoryWorkspace : Workspace :=
  { workspaceInfo := exampleWsInfo, chatSessions := [],
    editingSessions := [emptyHistorySession] }

/-- The failure condition of the parse attempted by `format_datetime`:
for a numeric input, the timestamp conversion fails (year out of
`datetime`'s range); for a string input, the ISO parse of the
Z-normalised string fails. -/
def formatParseFails (tz : Int) : PyVal → Prop
  | .int n =>
    fromtimestampFields tz ((if n > 10000000000 then n else 1000 * n).fdiv 1000) = none
  | .str s => parseIsoChars (strReplace s "Z" "+00:00").toList = none

/-- C9: `format_datetime` never raises — it is modelled by a total
function — and whenever the parse it attempts fails, it returns the
literal string form `str(input)` of its input. -/
theorem c9_format_datetime_fallback (tz : Int) (v : PyVal)
    (h : formatParseFails tz v) : format_datetime tz v = pyStr v := by
  cases v with
  | int n =>
    have h' : fromtimestampFields tz
        ((if n > 10000000000 then n else 1000 * n).fdiv 1000) = none := h
    show (match fromtimestampFields tz
            ((if n > 10000000000 then n else 1000 * n).fdiv 1000) with
          | some f => strftimeYmdHms f
          | none => pyStr (.int n)) = pyStr (.int n)
    rw [h']
  | str s =>
    have h' : parseIsoChars (strReplace s "Z" "+00:00").toList = none := h
    show (match parseIsoChars (strReplace s "Z" "+00:00").toList with
          | some f => strftimeYmdHms f
          | none => s) = pyStr (.str s)
    rw [h']
    rfl

/-- Witness for C9 at the concrete unparseable input "not a timestamp". -/
theorem c9_witness :
    formatParseFails 0 (.str "not a timestamp") ∧
      format_datetime 0 (.str "not a timestamp") = "not a timestamp" := by
  have h : formatParseFails 0 (.str "not a timestamp") := by
    show parseIsoChars (strReplace "not a timestamp" "Z" "+00:00").toList = none
    decide
  exact ⟨h, c9_format_datetime_fallback 0 (.str "not a timestamp") h⟩

/-- C8 counterexample: `-11000000` (an epoch in seconds, magnitude at most
1e10) and `-11000000000` (the same instant in milliseconds, magnitude
exceeding 1e10) format differently: the signed comparison
`date_str > 1e10` routes the negative millisecond value through the
seconds branch. -/
theorem c8_counterexample :
    (-11000000000 : Int) = 1000 * (-11000000) ∧
      format_datetime 0 (.int (-11000000000)) ≠ format_datetime 0 (.int (-11000000)) := by
  constructor
  · decide
  · decide

/-- C8 amended: the claim holds for positive instants: whenever
`10^7 < s ≤ 10^10` (so the millisecond form `1000*s` exceeds 1e10 while the
second form does not) and the instant is representable (the shared
conversion succeeds), both numeric forms format identically, for every
fixed timezone offset.  For negative instants the signed comparison of the
code breaks the rule (see the counterexample). -/
theorem c8_amended (tz s : Int) (h1 : 10000000 < s) (h2 : s ≤ 10000000000)
    (h3 : fromtimestampFields tz s ≠ none) :
    format_datetime tz (.int (1000 * s)) = format_datetime tz (.int s) := by
  obtain ⟨f, hf⟩ := Option.ne_none_iff_exists'.mp h3
  have hms : 1000 * s > 10000000000 := by omega
  have hs : ¬ s > 10000000000 := by omega
  have e1 : (if 1000 * s > 10000000000 then 1000 * s else 1000 * (1000 * s))
      = 1000 * s := if_pos hms
  have e2 : (if s > 10000000000 then s else 1000 * s) = 1000 * s := if_neg hs
  have efdiv : (1000 * s).fdiv 1000 = s :=
    Int.mul_fdiv_cancel_left s (by norm_num)
  show (match fromtimestampFields tz
          ((if 1000 * s > 10000000000 then 1000 * s else 1000 * (1000 * s)).fdiv 1000) with
        | some f => strftimeYmdHms f
        | none => pyStr (.int (1000 * s))) =
       (match fromtimestampFields tz
          ((if s > 10000000000 then s else 1000 * s).fdiv 1000) with
        | some f => strftimeYmdHms f
        | none => pyStr (.int s))
  rw [e1, e2, efdiv, hf]

/-- Witness for C8 amended at the spec's pair 1705313400 / 1705313400000. -/
theorem c8_witness :
    (10000000 : Int) < 1705313400 ∧ (1705313400 : Int) ≤ 10000000000 ∧
      fromtimestampFields 0 1705313400 ≠ none ∧
      format_datetime 0 (.int (1000 * 1705313400)) = format_datetime 0 (.int 1705313400) :=
  ⟨by decide, by decide, by decide,
    c8_amended 0 1705313400 (by decide) (by decide) (by decide)⟩

lemma strData_append (s t : String) : (s ++ t).data = s.data ++ t.data := rfl

lemma strLength_eq (s : String) : s.length = s.data.length := rfl

lemma strExt {s t : String} (h : s.data = t.data) : s = t := by
  cases s; cases t; exact congrArg String.mk h

lemma listPrefixOf_singleton (a c : Char) (rest : List Char) :
    listPrefixOf [a] (c :: rest) = (a == c) := by
  simp [listPrefixOf]

lemma replaceFuel_single (a b : Char) :
    ∀ (l : List Char) (fuel : Nat), l.length ≤ fuel →
      replaceFuel a [] [b] fuel l = l.map fun c => if c = a then b else c := by
  intro l
  induction l with
  | nil => intro fuel _; cases fuel <;> rfl
  | cons c rest ih =>
    intro fuel hf
    cases fuel with
    | zero => simp at hf
    | succ fuel =>
      have hf' : rest.length ≤ fuel := by simpa using hf
      by_cases hc : c = a
      · subst hc
        simp [replaceFuel, listPrefixOf, ih fuel hf']
      · have : (a == c) = false := by
          simp [beq_iff_eq]
          exact fun h => hc h.symm
        simp [replaceFuel, listPrefixOf, this, hc, ih fuel hf']

lemma strReplace_space (s : String) :
    strReplace s " " "-" = ⟨s.data.map fun c => if c = ' ' then '-' else c⟩ := by
  have h : strReplace s " " "-" = ⟨replaceFuel ' ' [] ['-'] s.data.length s.data⟩ := rfl
  rw [h, replaceFuel_single ' ' '-' s.data s.data.length le_rfl]

lemma strReplace_colon (s : String) :
    strReplace s ":" "-" = ⟨s.data.map fun c => if c = ':' then '-' else c⟩ := by
  have h : strReplace s ":" "-" = ⟨replaceFuel ':' [] ['-'] s.data.length s.data⟩ := rfl
  rw [h, replaceFuel_single ':' '-' s.data s.data.length le_rfl]

lemma digitChar_isDigit (d : Int) : (digitChar d).isDigit = true := by
  unfold digitChar
  have h0 : 0 ≤ d.emod 10 := Int.emod_nonneg d (by norm_num)
  have h1 : d.emod 10 < 10 := Int.emod_lt_of_pos d (by norm_num)
  have h2 : (d.emod 10).toNat < 10 := by omega
  set k := (d.emod 10).toNat with hk
  interval_cases k <;> decide

lemma pad2_data (n : Int) : (pad2 n).data = [digitChar (n.ediv 10), digitChar n] := rfl

lemma pad4_data (y : Int) :
    (pad4 y).data = [digitChar (y.ediv 1000), digitChar (y.ediv 100),
      digitChar (y.ediv 10), digitChar y] := rfl

lemma strftime_chars (f : DtFields) :
    ∀ c ∈ (strftimeYmdHms f).data,
      c.isDigit = true ∨ c = '-' ∨ c = ' ' ∨ c = ':' := by
  obtain ⟨y, m, d, h, mi, s⟩ := f
  intro c hc
  simp only [strftimeYmdHms, strData_append, pad4_data, pad2_data,
    List.mem_append, List.mem_cons, List.not_mem_nil, or_false] at hc
  casesm* _ ∨ _ <;> subst_vars <;> simp [digitChar_isDigit]

lemma strftime_length (f : DtFields) : (strftimeYmdHms f).data.length = 19 := by
  obtain ⟨y, m, d, h, mi, s⟩ := f
  simp [strftimeYmdHms, strData_append, pad4_data, pad2_data]

/-- The fully dashified date prefix built by `get_safe_filename` from a
successfully formatted timestamp contains only digits and dashes. -/
lemma dashified_chars (f : DtFields) :
    ∀ c ∈ (strReplace (strReplace (strftimeYmdHms f) " " "-") ":" "-").data,
      c.isDigit = true ∨ c = '-' := by
  intro c hc
  rw [strReplace_space, strReplace_colon] at hc
  simp only [List.mem_map] at hc
  obtain ⟨c1, hc1, hc1e⟩ := hc
  obtain ⟨c0, hc0, hc0e⟩ := hc1
  rcases strftime_chars f c0 hc0 with hd | h | h | h
  · subst hc0e; subst hc1e
    by_cases h1 : c0 = ' '
    · subst h1; simp at hd
    · rw [if_neg h1]
      by_cases h2 : c0 = ':'
      · subst h2; simp at hd
      · rw [if_neg h2]; exact Or.inl hd
  · subst h; subst hc0e; subst hc1e; simp
  · subst h; subst hc0e; subst hc1e; simp
  · subst h; subst hc0e; subst hc1e; simp

lemma dashified_length (f : DtFields) :
    (strReplace (strReplace (strftimeYmdHms f) " " "-") ":" "-").data.length = 19 := by
  rw [strReplace_space, strReplace_colon]
  simp [strftime_length f]

lemma digit_not_forbidden {c : Char} (h : c.isDigit = true) :
    c ∉ forbiddenFilenameChars := by
  intro hmem
  have hv1 : 48 ≤ c.val.toNat := by
    simp [Char.isDigit] at h
    exact h.1
  have hv2 : c.val.toNat ≤ 57 := by
    simp [Char.isDigit] at h
    exact h.2
  simp only [forbiddenFilenameChars, List.mem_cons, List.not_mem_nil, or_false] at hmem
  rcases hmem with rfl|rfl|rfl|rfl|rfl|rfl|rfl|rfl|rfl <;> simp_all

lemma collapseWsAux_subset (l : List Char) :
    ∀ (b : Bool), ∀ c ∈ collapseWsAux b l, c = '-' ∨ c ∈ l := by
  induction l with
  | nil => intro b c hc; simp [collapseWsAux] at hc
  | cons x rest ih =>
    intro b c hc
    by_cases hx : isPySpace x
    · simp only [collapseWsAux, if_pos hx] at hc
      rcases List.mem_append.mp hc with h1 | h2
      · left
        cases b
        · simp at h1; simp [h1]
        · simp at h1
      · rcases ih true c h2 with h | h
        · exact Or.inl h
        · exact Or.inr (List.mem_cons_of_mem x h)
    · simp only [collapseWsAux, if_neg hx] at hc
      rcases List.mem_cons.mp hc with h1 | h2
      · exact Or.inr (h1 ▸ List.mem_cons_self x rest)
      · rcases ih false c h2 with h | h
        · exact Or.inl h
        · exact Or.inr (List.mem_cons_of_mem x h)

lemma sanitizeTitle_not_forbidden (t : String) :
    ∀ c ∈ (sanitizeTitle t).data, c ∉ forbiddenFilenameChars := by
  intro c hc
  have hsub := collapseWsAux_subset
    (t.data.map fun c => if c ∈ forbiddenFilenameChars then '-' else c) false c hc
  rcases hsub with h | h
  · subst h; decide
  · simp only [List.mem_map] at h
    obtain ⟨c0, _, hc0e⟩ := h
    by_cases hf : c0 ∈ forbiddenFilenameChars
    · rw [if_pos hf] at hc0e; subst hc0e; decide
    · rw [if_neg hf] at hc0e; subst hc0e; exact hf

lemma pySliceTo_subset (s : String) (k : Int) :
    ∀ c ∈ (pySliceTo s k).data, c ∈ s.data := by
  intro c hc
  unfold pySliceTo at hc
  split at hc <;> exact List.take_subset _ _ hc

lemma get_safe_filename_eq (tz : Int) (ts : PyVal) (title : String) :
    get_safe_filename tz ts title =
      (let date_str := strReplace (strReplace (format_datetime tz ts) " " "-") ":" "-"
       let safe_title := sanitizeTitle title
       if (date_str ++ "--" ++ safe_title).length > 160 then
         date_str ++ "--" ++ pySliceTo safe_title (160 - (date_str.length : Int) - 4)
       else date_str ++ "--" ++ safe_title) := rfl

/-- C5 counterexample: on a timestamp that fails to parse,
`get_safe_filename` passes `str(timestamp)` through as the date prefix
unsanitised, so the result can contain filename-forbidden characters. -/
theorem c5_counterexample :
    get_safe_filename 0 (.str "a/b") "t" = "a/b--t" ∧
      '/' ∈ (get_safe_filename 0 (.str "a/b") "t").data ∧
      '/' ∈ forbiddenFilenameChars := by
  exact ⟨by decide, by decide, by decide⟩

/-- C5 amended: for every timestamp that `format_datetime` actually
formats (in particular any numeric epoch whose instant is representable),
`get_safe_filename` returns at most 160 characters, none of them among
`< > : " / \ | ? *`, and the result always begins with the full dashified
date prefix followed by `--` — only the title portion is ever truncated.
The sanitisation does not apply to the date prefix, so for unparseable
timestamps the bound and the character guarantee both fail (see the
counterexample). -/
theorem c5_amended (tz n : Int) (title : String)
    (h : fromtimestampFields tz
      ((if n > 10000000000 then n else 1000 * n).fdiv 1000) ≠ none) :
    (get_safe_filename tz (.int n) title).length ≤ 160 ∧
    (∀ c ∈ (get_safe_filename tz (.int n) title).data, c ∉ forbiddenFilenameChars) ∧
    ∃ t : String, get_safe_filename tz (.int n) title =
      strReplace (strReplace (format_datetime tz (.int n)) " " "-") ":" "-"
        ++ "--" ++ t := by
  obtain ⟨f, hf⟩ := Option.ne_none_iff_exists'.mp h
  have hfmt : format_datetime tz (.int n) = strftimeYmdHms f := by
    show (match fromtimestampFields tz
            ((if n > 10000000000 then n else 1000 * n).fdiv 1000) with
          | some g => strftimeYmdHms g
          | none => pyStr (.int n)) = strftimeYmdHms f
    rw [hf]
  simp only [get_safe_filename_eq, hfmt]
  set D := strReplace (strReplace (strftimeYmdHms f) " " "-") ":" "-" with hD
  set T := sanitizeTitle title with hT
  have hDlen : D.data.length = 19 := dashified_length f
  have hDclean : ∀ c ∈ D.data, c ∉ forbiddenFilenameChars := by
    intro c hc
    rcases dashified_chars f c hc with hdig | hdash
    · exact digit_not_forbidden hdig
    · subst hdash; decide
  have hTclean : ∀ c ∈ T.data, c ∉ forbiddenFilenameChars :=
    sanitizeTitle_not_forbidden title
  have hddclean : ∀ c ∈ ("--" : String).data, c ∉ forbiddenFilenameChars := by decide
  by_cases hlen : (D ++ "--" ++ T).length > 160
  · rw [if_pos hlen]
    have hk : (160 - (D.length : Int) - 4) = 137 := by
      rw [strLength_eq, hDlen]; norm_num
    rw [hk]
    have hslice : pySliceTo T 137 = ⟨T.data.take 137⟩ := by
      unfold pySliceTo
      rw [if_pos (by norm_num : (0:Int) ≤ 137)]
      simp [Int.toNat_ofNat]
    refine ⟨?_, ?_, ⟨pySliceTo T 137, rfl⟩⟩
    · rw [strLength_eq, strData_append, strData_append, hslice]
      have h1 : (T.data.take 137).length ≤ 137 := List.length_take_le 137 T.data
      have h2 : (("--" : String).data).length = 2 := rfl
      simp only [List.length_append, hDlen, h2]
      simpa using by omega
    · intro c hc
      rw [strData_append, strData_append] at hc
      rcases List.mem_append.mp hc with hc1 | hc2
      · rcases List.mem_append.mp hc1 with hc3 | hc4
        · exact hDclean c hc3
        · exact hddclean c hc4
      · exact hTclean c (pySliceTo_subset T 137 c hc2)
  · rw [if_neg hlen]
    refine ⟨by omega, ?_, ⟨T, rfl⟩⟩
    intro c hc
    rw [strData_append, strData_append] at hc
    rcases List.mem_append.mp hc with hc1 | hc2
    · rcases List.mem_append.mp hc1 with hc3 | hc4
      · exact hDclean c hc3
      · exact hddclean c hc4
    · exact hTclean c hc2

/-- Witness for C5 amended at a representable epoch and a title holding
forbidden characters, long enough to trigger truncation. -/
theorem c5_witness :
    fromtimestampFields 0
        (((if (1705313400:Int) > 10000000000 then (1705313400:Int)
          else 1000 * 1705313400) : Int).fdiv 1000) ≠ none ∧
    (get_safe_filename 0 (.int 1705313400)
        (String.mk (List.replicate 200 '<'))).length ≤ 160 ∧
    (∀ c ∈ (get_safe_filename 0 (.int 1705313400)
        (String.mk (List.replicate 200 '<'))).data, c ∉ forbiddenFilenameChars) ∧
    ∃ t : String, get_safe_filename 0 (.int 1705313400)
        (String.mk (List.replicate 200 '<')) =
      strReplace (strReplace (format_datetime 0 (.int 1705313400)) " " "-") ":" "-"
        ++ "--" ++ t := by
  have h := c5_amended 0 1705313400 (String.mk (List.replicate 200 '<')) (by decide)
  exact ⟨by decide, h.1, h.2.1, h.2.2⟩

/-- The chat record `export_chat_session` appends to the summary
(cursor_export.py lines 285–290). -/
def chatRecordOf (s : ChatSession) : ChatRecord :=
  { title := sessionTitle s, sessionId := s.sessionId.getD "",
    timestamp := s.creationDate.getD (.str ""),
    conversation := buildConversation s }

lemma export_chat_session_snd (tz : Int) (m : String → String) (s : ChatSession)
    (wi : WorkspaceInfo) (wn od : String) :
    (export_chat_session tz m s wi wn od).2 = chatRecordOf s := rfl

lemma export_workspace_skip (tz : Int) (m : String → String)
    (j : WorkspaceData → String) (w : Workspace) (od : String)
    (h1 : w.chatSessions = []) (h2 : w.editingSessions = []) :
    export_workspace tz m j w od = ([], none) := by
  unfold export_workspace
  rw [h1, h2]
  rfl

lemma export_workspace_run (tz : Int) (m : String → String)
    (j : WorkspaceData → String) (w : Workspace) (od : String)
    (h : ¬(w.chatSessions = [] ∧ w.editingSessions = [])) :
    export_workspace tz m j w od =
      (let wn := workspaceNameOf w
       let chat_results := w.chatSessions.map fun s =>
         export_chat_session tz m s w.workspaceInfo wn od
       let edit_results := w.editingSessions.filterMap fun es =>
         export_editing_session m es w.workspaceInfo wn od
       let wd : WorkspaceData :=
         { workspace := wn, workspaceInfo := w.workspaceInfo,
           chats := chat_results.map Prod.snd,
           editingSessions := edit_results.map Prod.snd }
       ((chat_results.map Prod.fst).flatten ++ (edit_results.map Prod.fst).flatten ++
         (if wd.chats ≠ [] ∨ wd.editingSessions ≠ [] then
           [{ kind := FileKind.json, path := od ++ "/json/" ++ wn ++ ".json",
              content := j wd }]
          else []),
        some wd)) := by
  have hcond : (!(!w.chatSessions.isEmpty) && !(!w.editingSessions.isEmpty)) = false := by
    by_cases h1 : w.chatSessions = []
    · have h2 : w.editingSessions ≠ [] := fun h2 => h ⟨h1, h2⟩
      simp [h1, List.isEmpty_iff, h2]
    · simp [List.isEmpty_iff, h1]
  unfold export_workspace
  simp only [hcond]
  rfl

/-- C1 counterexample: exporting the workspace of the claim (one chat
session, one request with user text and one response fragment) yields
conversation roles "User" then "Cursor" — not "User" then "Assistant" as
the claim states. -/
theorem c1_counterexample :
    ((export_workspace 0 id (fun _ => "") exampleWorkspace "out").2.map
        fun wd => wd.chats.map fun c => c.conversation.map ConvEntry.role)
      ≠ some [["User", "Assistant"]] := by
  decide

/-- C1 amended: every conversation entry appended to a chat record has
role "User" (for a user message) or "Cursor" (for an assistant turn), and
the concrete workspace of the claim yields exactly two entries with roles
"User" then "Cursor", in that order. -/
theorem c1_conversation_roles :
    (∀ s : ChatSession, ∀ e ∈ buildConversation s,
        e.role = "User" ∨ e.role = "Cursor") ∧
    ((export_workspace 0 id (fun _ => "") exampleWorkspace "out").2.map
        fun wd => wd.chats.map fun c => c.conversation.map ConvEntry.role)
      = some [["User", "Cursor"]] := by
  constructor
  · intro s e he
    unfold buildConversation at he
    split at he
    · simp only [List.mem_flatten, List.mem_map] at he
      obtain ⟨l, ⟨r, _, rfl⟩, hel⟩ := he
      simp only [requestEntries] at hel
      rcases List.mem_append.mp hel with h1 | h2
      · split_ifs at h1 with ht
        · simp only [List.mem_singleton] at h1
          subst h1
          left; rfl
        · simp at h1
      · split_ifs at h2 with hr hp
        · simp only [List.mem_singleton] at h2
          subst h2
          right; rfl
        · simp at h2
        · simp at h2
    · simp at he
  · decide

/-- Witness for C1 amended at the first entry of the example session's
conversation. -/
theorem c1_witness :
    ({ role := "User", text := "Hi", timestamp := .str "" } : ConvEntry).role = "User" ∨
      ({ role := "User", text := "Hi", timestamp := .str "" } : ConvEntry).role = "Cursor" :=
  c1_conversation_roles.1 exampleSession
    { role := "User", text := "Hi", timestamp := .str "" } (by decide)

lemma renderRequest_blank {r : Request} (h1 : r.message.text = "")
    (h2 : responseParts r.response = []) : renderRequest r = "---\n\n" := by
  unfold renderRequest
  rw [if_neg (by simp [h1])]
  by_cases hresp : r.response ≠ []
  · rw [if_pos hresp]
    simp only [h2, ne_eq, not_true_eq_false, if_false]
    rfl
  · rw [if_neg hresp]
    rfl

lemma map_const_sep (l : List Request) :
    (l.map fun _ => ("---\n\n" : String)) = List.replicate l.length "---\n\n" := by
  induction l with
  | nil => rfl
  | cons x xs ih => simp [List.replicate, ih]

/-- C2 counterexample: a session whose single request has no user text and
no response fragments still renders a horizontal-rule separator (while,
as the claim also says, contributing no User/Cursor blocks). -/
theorem c2_counterexample :
    countOcc "**User**" (convert_cursor_session_to_markdown 0 blankSession exampleWsInfo)
        = 0 ∧
    countOcc "**Cursor**" (convert_cursor_session_to_markdown 0 blankSession exampleWsInfo)
        = 0 ∧
    countOcc "---" (convert_cursor_session_to_markdown 0 blankSession exampleWsInfo)
        = 1 := by
  exact ⟨by decide, by decide, by decide⟩

/-- C2 amended: the separator is emitted after every request, with or
without content: a session whose requests all lack text and response
fragments renders as the header/title preamble followed by one separator
per request (and no User/Cursor blocks, since the preamble contains
none). -/
theorem c2_amended (tz : Int) (s : ChatSession) (w : WorkspaceInfo)
    (h : ∀ r ∈ s.requests, r.message.text = "" ∧ responseParts r.response = []) :
    convert_cursor_session_to_markdown tz s w
      = convert_cursor_session_to_markdown tz { s with requests := [] } w
        ++ String.join (List.replicate s.requests.length "---\n\n") := by
  have hrr : ∀ r ∈ s.requests, renderRequest r = "---\n\n" := fun r hr =>
    renderRequest_blank (h r hr).1 (h r hr).2
  unfold convert_cursor_session_to_markdown
  have hcl : createdLine tz { s with requests := ([] : List Request) }
      = createdLine tz s := rfl
  have hst : sessionTitle { s with requests := ([] : List Request) }
      = sessionTitle s := rfl
  rw [hcl, hst]
  by_cases hreq : s.requests = []
  · rw [hreq]
    apply strExt
    simp [strData_append]
  · rw [if_pos (by simpa using hreq), if_neg (by simp)]
    have hmap : s.requests.map renderRequest
        = List.replicate s.requests.length "---\n\n" := by
      rw [List.map_congr_left hrr, map_const_sep]
    rw [hmap]
    apply strExt
    simp [strData_append]

/-- Witness for C2 amended at the concrete contentless session. -/
theorem c2_witness :
    convert_cursor_session_to_markdown 0 blankSession exampleWsInfo
      = convert_cursor_session_to_markdown 0 { blankSession with requests := [] }
          exampleWsInfo
        ++ String.join (List.replicate blankSession.requests.length "---\n\n") :=
  c2_amended 0 blankSession exampleWsInfo (by decide)

/-- C3 counterexample: a workspace whose only chat session has a request
with no text still produces a markdown file, an HTML file and a chat entry
in the JSON workspace summary — the chat session is not skipped. -/
theorem c3_counterexample :
    ((export_workspace 0 id (fun _ => "") blankWorkspace "out").2.map
        fun wd => wd.chats.length) = some 1 ∧
    ((export_workspace 0 id (fun _ => "") blankWorkspace "out").1.map
        FileWrite.kind) = [FileKind.markdown, FileKind.html, FileKind.json] := by
  exact ⟨by decide, by decide⟩

/-- C3 amended: only editing sessions are filtered at export time — one
with an empty `linearHistory` is skipped entirely (no writes, no summary
record) — while `export_chat_session` never skips: it always writes its
markdown and HTML files (and appends its record), whatever the content.
Chat sessions with an empty `requests` list are dropped only by the
directory loader's filter. -/
theorem c3_amended :
    (∀ (m : String → String) (es : EditingSession) (wi : WorkspaceInfo) (wn od : String),
        es.linearHistory = [] → export_editing_session m es wi wn od = none) ∧
    (∀ (tz : Int) (m : String → String) (s : ChatSession) (wi : WorkspaceInfo)
        (wn od : String),
        (export_chat_session tz m s wi wn od).1.map FileWrite.kind
          = [FileKind.markdown, FileKind.html]) ∧
    (∀ s : ChatSession, keepChatSession s = false ↔ s.requests = []) := by
  refine ⟨?_, ?_, ?_⟩
  · intro m es wi wn od h
    unfold export_editing_session
    rw [if_pos h]
  · intro tz m s wi wn od
    rfl
  · intro s
    simp [keepChatSession, List.isEmpty_iff]

/-- Witness for C3 amended at the concrete empty-history editing session
and the contentless chat session. -/
theorem c3_witness :
    export_editing_session id emptyHistorySession exampleWsInfo "proj" "out" = none ∧
    (export_chat_session 0 id blankSession exampleWsInfo "proj" "out").1.map
        FileWrite.kind = [FileKind.markdown, FileKind.html] :=
  ⟨c3_amended.1 id emptyHistorySession exampleWsInfo "proj" "out" rfl,
   c3_amended.2.1 0 id blankSession exampleWsInfo "proj" "out"⟩

/-- C4 counterexample: a workspace whose only editing session has an empty
`linearHistory` exports nothing — no file writes at all (in particular no
JSON summary file) and an empty summary — yet `export_workspace` returns
the summary, not null. -/
theorem c4_counterexample :
    (export_workspace 0 id (fun _ => "") emptyHistoryWorkspace "out").1 = [] ∧
    (export_workspace 0 id (fun _ => "") emptyHistoryWorkspace "out").2
      = some { workspace := "proj", workspaceInfo := exampleWsInfo,
               chats := [], editingSessions := [] } := by
  exact ⟨by decide, by decide⟩

/-- C4 amended: the JSON summary file is written exactly when the
accumulated summary has at least one chat or editing-session record; but
`export_workspace` returns null exactly when the workspace's `chatSessions`
and `editingSessions` input lists are both empty — it returns a non-null
(possibly empty) summary whenever either list is non-empty, even if
nothing was actually exported. -/
theorem c4_amended (tz : Int) (m : String → String) (j : WorkspaceData → String)
    (w : Workspace) (od : String) :
    ((export_workspace tz m j w od).2 = none ↔
      w.chatSessions = [] ∧ w.editingSessions = []) ∧
    (∀ wd, (export_workspace tz m j w od).2 = some wd →
      ((∃ fw ∈ (export_workspace tz m j w od).1, fw.kind = FileKind.json) ↔
        (wd.chats ≠ [] ∨ wd.editingSessions ≠ []))) := by
  by_cases hskip : w.chatSessions = [] ∧ w.editingSessions = []
  · rw [export_workspace_skip tz m j w od hskip.1 hskip.2]
    refine ⟨by simpa using hskip, ?_⟩
    intro wd hwd
    simp at hwd
  · have hrun := export_workspace_run tz m j w od hskip
    set wn := workspaceNameOf w with hwn
    set chat_results := w.chatSessions.map fun s =>
      export_chat_session tz m s w.workspaceInfo wn od with hcr
    set edit_results := w.editingSessions.filterMap fun es =>
      export_editing_session m es w.workspaceInfo wn od with her
    set wd0 : WorkspaceData :=
      { workspace := wn, workspaceInfo := w.workspaceInfo,
        chats := chat_results.map Prod.snd,
        editingSessions := edit_results.map Prod.snd } with hwd0
    have hrun' : export_workspace tz m j w od =
        ((chat_results.map Prod.fst).flatten ++ (edit_results.map Prod.fst).flatten ++
          (if wd0.chats ≠ [] ∨ wd0.editingSessions ≠ [] then
            [{ kind := FileKind.json, path := od ++ "/json/" ++ wn ++ ".json",
               content := j wd0 }]
           else []),
         some wd0) := hrun
    rw [hrun']
    constructor
    · exact iff_of_false (by simp) hskip
    · intro wd hwd
      have hwdeq : wd0 = wd := Option.some.inj hwd
      subst hwdeq
      by_cases hjson : wd0.chats ≠ [] ∨ wd0.editingSessions ≠ []
      · refine iff_of_true ?_ hjson
        refine ⟨{ kind := FileKind.json, path := od ++ "/json/" ++ wn ++ ".json",
                  content := j wd0 }, ?_, rfl⟩
        rw [if_pos hjson]
        exact List.mem_append.mpr (Or.inr (List.mem_singleton.mpr rfl))
      · refine iff_of_false ?_ hjson
        push_neg at hjson
        obtain ⟨hchats, hedits⟩ := hjson
        have hcr0 : chat_results = [] := by
          have := hwd0 ▸ hchats
          exact List.map_eq_nil_iff.mp hchats
        have her0 : edit_results = [] := by
          exact List.map_eq_nil_iff.mp hedits
        rw [hcr0, her0]
        simp
        exact ⟨hcr0, her0⟩

/-- Witness for C4 amended at the workspace with one empty-history editing
session. -/
theorem c4_witness :
    ((export_workspace 0 id (fun _ => "") emptyHistoryWorkspace "out").2 = none ↔
      emptyHistoryWorkspace.chatSessions = [] ∧
        emptyHistoryWorkspace.editingSessions = []) ∧
    ((∃ fw ∈ (export_workspace 0 id (fun _ => "") emptyHistoryWorkspace "out").1,
        fw.kind = FileKind.json) ↔
      (({ workspace := "proj", workspaceInfo := exampleWsInfo, chats := [],
          editingSessions := [] } : WorkspaceData).chats ≠ [] ∨
        ({ workspace := "proj", workspaceInfo := exampleWsInfo, chats := [],
           editingSessions := [] } : WorkspaceData).editingSessions ≠ [])) :=
  ⟨(c4_amended 0 id (fun _ => "") emptyHistoryWorkspace "out").1,
   (c4_amended 0 id (fun _ => "") emptyHistoryWorkspace "out").2
     { workspace := "proj", workspaceInfo := exampleWsInfo, chats := [],
       editingSessions := [] } (by decide)⟩

lemma export_workspace_snd_run (tz : Int) (m : String → String)
    (j : WorkspaceData → String) (w : Workspace) (od : String)
    (h : ¬(w.chatSessions = [] ∧ w.editingSessions = [])) :
    (export_workspace tz m j w od).2 =
      some { workspace := workspaceNameOf w, workspaceInfo := w.workspaceInfo,
             chats := (w.chatSessions.map fun s =>
               export_chat_session tz m s w.workspaceInfo (workspaceNameOf w) od).map
                 Prod.snd,
             editingSessions := (w.editingSessions.filterMap fun es =>
               export_editing_session m es w.workspaceInfo (workspaceNameOf w) od).map
                 Prod.snd } := by
  rw [export_workspace_run tz m j w od h]

/-- A workspace whose metadata has an id but no folder. -/
def idOnlyWorkspace : Workspace :=
  { workspaceInfo := { id := some "abc", folder := "" },
    chatSessions := [exampleSession], editingSessions := [] }

/-- C6 counterexample: with `folder` absent and `workspaceInfo.id = "abc"`,
`export_workspace` names the workspace "Unknown" — it never falls back to
the id. -/
theorem c6_counterexample :
    ((export_workspace 0 id (fun _ => "") idOnlyWorkspace "out").2.map
        WorkspaceData.workspace) = some "Unknown" ∧
      ("Unknown" : String) ≠ "abc" := by
  exact ⟨by decide, by decide⟩

/-- C6 amended: the workspace name is the last path segment of the
scheme-stripped folder when that is non-empty, and the literal "Unknown"
otherwise; `workspaceInfo.id` is never consulted (replacing it changes no
workspace name). -/
theorem c6_amended (tz : Int) (m : String → String) (j : WorkspaceData → String)
    (w : Workspace) (od : String) :
    (∀ wd, (export_workspace tz m j w od).2 = some wd →
      wd.workspace =
        (let f0 := w.workspaceInfo.folder
         let f := if strStartsWith f0 "file://" then strReplace f0 "file://" "" else f0
         if f ≠ "" then pathName f else "Unknown")) ∧
    (∀ i : Option String,
      ((export_workspace tz m j
          { w with workspaceInfo := { w.workspaceInfo with id := i } } od).2.map
          WorkspaceData.workspace)
        = ((export_workspace tz m j w od).2.map WorkspaceData.workspace)) := by
  constructor
  · intro wd hwd
    by_cases hskip : w.chatSessions = [] ∧ w.editingSessions = []
    · rw [export_workspace_skip tz m j w od hskip.1 hskip.2] at hwd
      simp at hwd
    · rw [export_workspace_snd_run tz m j w od hskip] at hwd
      obtain rfl := (Option.some.inj hwd).symm
      rfl
  · intro i
    by_cases hskip : w.chatSessions = [] ∧ w.editingSessions = []
    · rw [export_workspace_skip tz m j w od hskip.1 hskip.2,
          export_workspace_skip tz m j
            { w with workspaceInfo := { w.workspaceInfo with id := i } } od
            hskip.1 hskip.2]
    · rw [export_workspace_snd_run tz m j w od hskip,
          export_workspace_snd_run tz m j
            { w with workspaceInfo := { w.workspaceInfo with id := i } } od hskip]
      rfl

/-- Witness for C6 amended at the id-only workspace. -/
theorem c6_witness :
    ({ workspace := "Unknown", workspaceInfo := { id := some "abc", folder := "" },
       chats := [chatRecordOf exampleSession],
       editingSessions := [] } : WorkspaceData).workspace
      = (let f0 := idOnlyWorkspace.workspaceInfo.folder
         let f := if strStartsWith f0 "file://" then strReplace f0 "file://" "" else f0
         if f ≠ "" then pathName f else "Unknown") ∧
    ((export_workspace 0 id (fun _ => "")
        { idOnlyWorkspace with
          workspaceInfo := { idOnlyWorkspace.workspaceInfo with id := none } }
        "out").2.map WorkspaceData.workspace)
      = ((export_workspace 0 id (fun _ => "") idOnlyWorkspace "out").2.map
          WorkspaceData.workspace) :=
  ⟨(c6_amended 0 id (fun _ => "") idOnlyWorkspace "out").1
     { workspace := "Unknown", workspaceInfo := { id := some "abc", folder := "" },
       chats := [chatRecordOf exampleSession], editingSessions := [] } (by decide),
   (c6_amended 0 id (fun _ => "") idOnlyWorkspace "out").2 none⟩

/-- A six-element change list whose first fragment has empty text. -/
def sixChanges : List Change :=
  [{ txt := "" }, { txt := "a" }, { txt := "b" }, { txt := "c" }, { txt := "d" },
   { txt := "e" }]

/-- A `postEdit` element with six changes, the first with empty text. -/
def examplePostEdit : PostEdit :=
  { resource := "file:///f.txt", originalToCurrentEdit := sixChanges }

/-- An editing session with one entry carrying `examplePostEdit`. -/
def exampleEditingSession : EditingSession :=
  { sessionId := some "e2", version := none,
    linearHistory := [{ stops := [], postEdit := [examplePostEdit] }] }

set_option maxRecDepth 8000 in
/-- C7 counterexample: a `postEdit` element with six changes, the first of
which has falsy `txt`, renders only four change lines, not five. -/
theorem c7_counterexample :
    5 < examplePostEdit.originalToCurrentEdit.length ∧
    countOcc "    - Added: `"
        (convert_cursor_editing_session_to_markdown exampleEditingSession exampleWsInfo)
      = 4 := by
  exact ⟨by decide, by decide⟩

/-- C7 amended: when the element's resource carries the `file://` scheme
and each of the first five changes has non-empty `txt`, exactly five change
lines are rendered, each showing the fragment's `txt` truncated to its
first 100 characters and suffixed with the ellipsis marker; a falsy `txt`
among the first five (or a non-`file://` resource) renders fewer. -/
theorem c7_amended (pe : PostEdit)
    (hres : strStartsWith pe.resource "file://" = true)
    (hlen : 5 < pe.originalToCurrentEdit.length)
    (htxt : ∀ c ∈ pe.originalToCurrentEdit.take 5, c.txt ≠ "") :
    ∃ lines : List String,
      lines.length = 5 ∧
      lines = (pe.originalToCurrentEdit.take 5).map
        (fun c => "    - Added: `" ++ strTake c.txt 100 ++ "...`\n") ∧
      renderPostEdit pe
        = "- Modified: `" ++ strReplace pe.resource "file://" "" ++ "`\n"
          ++ "  - Edits:\n" ++ String.join lines := by
  refine ⟨(pe.originalToCurrentEdit.take 5).map
      (fun c => "    - Added: `" ++ strTake c.txt 100 ++ "...`\n"), ?_, rfl, ?_⟩
  · rw [List.length_map, List.length_take]
    omega
  · have hne : pe.originalToCurrentEdit ≠ [] := by
      intro h0
      rw [h0] at hlen
      simp at hlen
    have hrc : renderChanges pe.originalToCurrentEdit
        = String.join ((pe.originalToCurrentEdit.take 5).map
            (fun c => "    - Added: `" ++ strTake c.txt 100 ++ "...`\n")) := by
      unfold renderChanges
      congr 1
      refine List.map_congr_left fun c hc => ?_
      unfold renderChange
      rw [if_pos (htxt c hc)]
    unfold renderPostEdit
    rw [hres]
    simp only [if_true]
    rw [if_pos hne, hrc]
    apply strExt
    simp [strData_append]

/-- A `postEdit` element with six changes, all with non-empty text. -/
def fullPostEdit : PostEdit :=
  { resource := "file:///g.txt",
    originalToCurrentEdit :=
      [{ txt := "a" }, { txt := "b" }, { txt := "c" }, { txt := "d" }, { txt := "e" },
       { txt := "f" }] }

/-- Witness for C7 amended at a six-change element whose first five changes
all carry text. -/
theorem c7_witness :
    ∃ lines : List String,
      lines.length = 5 ∧
      lines = (fullPostEdit.originalToCurrentEdit.take 5).map
        (fun c => "    - Added: `" ++ strTake c.txt 100 ++ "...`\n") ∧
      renderPostEdit fullPostEdit
        = "- Modified: `" ++ strReplace fullPostEdit.resource "file://" "" ++ "`\n"
          ++ "  - Edits:\n" ++ String.join lines :=
  c7_amended fullPostEdit (by decide) (by decide) (by decide)

/-- C10: for every non-skipped workspace (the summary is non-null),
exactly one chat record is appended per element of `chatSessions`, in
source order — including sessions with no user text and no response
fragments — so the summary's `chats` is the elementwise image of
`chatSessions` and in particular has the same length. -/
theorem c10_one_chat_record_per_session (tz : Int) (m : String → String)
    (j : WorkspaceData → String) (w : Workspace) (od : String) (wd : WorkspaceData)
    (h : (export_workspace tz m j w od).2 = some wd) :
    wd.chats = w.chatSessions.map chatRecordOf ∧
    wd.chats.length = w.chatSessions.length := by
  by_cases hskip : w.chatSessions = [] ∧ w.editingSessions = []
  · rw [export_workspace_skip tz m j w od hskip.1 hskip.2] at h
    simp at h
  · rw [export_workspace_snd_run tz m j w od hskip] at h
    obtain rfl := (Option.some.inj h).symm
    have hmap : ((w.chatSessions.map fun s =>
        export_chat_session tz m s w.workspaceInfo (workspaceNameOf w) od).map
          Prod.snd) = w.chatSessions.map chatRecordOf := by
      rw [List.map_map]
      exact List.map_congr_left fun s _ =>
        export_chat_session_snd tz m s w.workspaceInfo (workspaceNameOf w) od
    refine ⟨hmap, ?_⟩
    rw [hmap, List.length_map]

/-- Witness for C10 at the example workspace with one chat session. -/
theorem c10_witness :
    ({ workspace := "proj", workspaceInfo := exampleWsInfo,
       chats := [chatRecordOf exampleSession],
       editingSessions := [] } : WorkspaceData).chats
      = exampleWorkspace.chatSessions.map chatRecordOf ∧
    ({ workspace := "proj", workspaceInfo := exampleWsInfo,
       chats := [chatRecordOf exampleSession],
       editingSessions := [] } : WorkspaceData).chats.length
      = exampleWorkspace.chatSessions.length :=
  c10_one_chat_record_per_session 0 id (fun _ => "") exampleWorkspace "out"
    { workspace := "proj", workspaceInfo := exampleWsInfo,
      chats := [chatRecordOf exampleSession], editingSessions := [] } (by decide)
